import Mathlib

/-!
Verification of the govips `ImageRef` handle layer (`src/vips/image.go`).

The Go file wraps a libvips image (`*C.VipsImage`) in a managed handle
(`ImageRef`) and orchestrates native "operation primitives" (resize, rotate,
colourspace conversion, encode, ...) around it.  The primitives themselves are
external collaborators: they live in the native engine and in repository files
outside `src/`, so they are modelled abstractly here as an environment of
functions `VipsImage -> Except String VipsImage`, and the handle-layer control
flow of `image.go` is embedded faithfully on top of them.

Modelling choices:
* A native image reference is a `VipsImage` value carrying the observable
  header fields (`Xsize`, `Ysize`, `Bands`, `BandFmt`, `Type`) together with
  the metadata the handle layer reads and writes (page count, page height,
  orientation, alpha flag, ICC presence) and a numeric `id` standing for the
  pointer identity of the native object (distinct live native objects have
  distinct ids, so value equality of `VipsImage` models Go's pointer
  comparison `r.image == image`).
* Go `float64` arguments are modelled by `GoFloat`, an exact fraction
  `num/den`; `int(x)` conversion is truncation toward zero, as in Go.
* Mutation methods return a `MethodResult`: the new handle state, an optional
  error (Go's `error` return) and the trace of native primitive invocations
  performed, in order.  `setImage` and `Close` additionally report the list of
  native references they released (`clearImage` calls).
* The mutex is not modelled: every claim under study is about the
  single-threaded sequential behaviour of one method call.
-/

/-- Image format tag (`ImageType` in the repository; the enum values live
outside `src/`, only the distinct tags matter here). -/
inductive ImageType where
  | unknown
  | gif
  | jpeg
  | magick
  | pdf
  | png
  | svg
  | tiff
  | webp
  | heif
  | bmp
  | avif
  | jp2k
deriving DecidableEq, Repr

/-- Rotation angle (`Angle` in the repository). -/
inductive Angle where
  | d0
  | d90
  | d180
  | d270
deriving DecidableEq, Repr

/-- Modelled from the spec: band format enum values (`BandFormat`, defined in a
repository file outside `src/`); the libvips `VipsBandFormat` codes. -/
def bandFormatNotSet : Int := -1

/-- Modelled from the spec: `BandFormatUchar` enum value. -/
def bandFormatUchar : Int := 0

/-- Modelled from the spec: `BandFormatChar` enum value. -/
def bandFormatChar : Int := 1

/-- Modelled from the spec: `BandFormatFloat` enum value. -/
def bandFormatFloat : Int := 6

/-- Modelled from the spec: `InterpretationRGB` enum value (colour space codes
are defined in a repository file outside `src/`). -/
def interpretationRGB : Int := 17

/-- Modelled from the spec: `InterpretationLCH` enum value. -/
def interpretationLCH : Int := 19

/-- Modelled from the spec: `InterpretationCMYK` enum value. -/
def interpretationCMYK : Int := 15

/-- Modelled from the spec: `InterpretationSRGB` enum value. -/
def interpretationSRGB : Int := 22

/-- Modelled from the spec: `InterpretationHSV` enum value. -/
def interpretationHSV : Int := 29

/-- Modelled from the spec: `DirectionHorizontal` enum value. -/
def directionHorizontal : Int := 0

/-- Modelled from the spec: `TiffCompressionNone` enum value. -/
def tiffCompressionNone : Int := 0

/-- Modelled from the spec: `TiffCompressionLzw` enum value. -/
def tiffCompressionLzw : Int := 5

/-- Modelled from the spec: `TiffPredictorHorizontal` enum value. -/
def tiffPredictorHorizontal : Int := 2

/-- Modelled from the spec: `PngFilterNone` enum value. -/
def pngFilterNone : Int := 8

/-- Modelled from the spec: `SRGBV2MicroICCProfilePath`, a profile file path
constant defined in a repository file outside `src/`. -/
def SRGBV2MicroICCProfilePath : String := "srgb_v2_micro.icc"

/-- Modelled from the spec: `SGrayV2MicroICCProfilePath`. -/
def SGrayV2MicroICCProfilePath : String := "sgray_v2_micro.icc"

/-- Modelled from the spec: `SRGBIEC6196621ICCProfilePath`. -/
def SRGBIEC6196621ICCProfilePath : String := "srgb_iec61966_2_1.icc"

/-- Exact-rational model of a Go `float64` value: the fraction `num / den`
(`den` positive by convention).  Floating-point rounding is abstracted away;
the handle layer only multiplies scale factors and compares against `-1`. -/
structure GoFloat where
  num : Int
  den : Int
deriving DecidableEq, Repr

instance (n : Nat) : OfNat GoFloat n := ⟨⟨(n : Int), 1⟩⟩

instance : Neg GoFloat := ⟨fun f => ⟨-f.num, f.den⟩⟩

/-- Whether the `float64` value equals `-1` (the sentinel `vScale == -1`
comparison): `num/den = -1` iff `num = -den`. -/
def GoFloat.isNegOne (f : GoFloat) : Bool := f.num = -f.den

/-- Go's `int(float64(n) * f)`: exact product truncated toward zero
(`Int.tdiv` is truncation toward zero, like Go's float-to-int conversion). -/
def GoFloat.mulIntTrunc (f : GoFloat) (n : Int) : Int :=
  Int.tdiv (n * f.num) f.den

/-- Model of a `*C.VipsImage` native object: the header fields the handle
layer reads plus the metadata items it reads and writes.  `id` stands for the
pointer identity of the native allocation. -/
structure VipsImage where
  id : Nat
  xsize : Int
  ysize : Int
  bands : Int
  bandFmt : Int
  interp : Int
  nPages : Int
  pageHeight : Int
  orient : Int
  hasAlpha : Bool
  hasICC : Bool
deriving DecidableEq, Repr

instance : Inhabited VipsImage := ⟨⟨0, 0, 0, 0, 0, 0, 0, 0, 0, false, false⟩⟩

/-- Modelled from the spec: `vipsSetPageHeight` (header helpers live outside
`src/`) writes the page-height metadata item of a native image in place. -/
def vipsSetPageHeight (img : VipsImage) (height : Int) : VipsImage :=
  { img with pageHeight := height }

/-- Modelled from the spec: `vipsSetImageNPages` writes the `n-pages` metadata
item of a native image in place. -/
def vipsSetImageNPages (img : VipsImage) (pages : Int) : VipsImage :=
  { img with nPages := pages }

/-- Source `PreMultiplicationState` (`image.go`): the band format saved when alpha
pre-multiplication was activated, to be restored on reversal. -/
structure PreMultiplicationState where
  bandFormat : Int
deriving DecidableEq, Repr

/-- Source `ImageRef` (`image.go`): the managed handle.  `image = none` models the
`nil` native pointer after `Close`; `buf` is the retained source buffer. -/
structure ImageRef where
  image : Option VipsImage
  format : ImageType
  originalFormat : ImageType
  preMultiplication : Option PreMultiplicationState
  optimizedIccProfile : String
  buf : Option (List Nat)
deriving DecidableEq, Repr

/-- Source `ImageMetadata` (`image.go`). -/
structure ImageMetadata where
  Format : ImageType
  Width : Int
  Height : Int
  Colorspace : Int
  Orientation : Int
  Pages : Int
deriving DecidableEq, Repr

/-- Source `JpegExportParams` (`image.go`). -/
structure JpegExportParams where
  StripMetadata : Bool
  Quality : Int
  Interlace : Bool
  OptimizeCoding : Bool
  SubsampleMode : Int
  TrellisQuant : Bool
  OvershootDeringing : Bool
  OptimizeScans : Bool
  QuantTable : Int
deriving DecidableEq, Repr

/-- Source `NewJpegExportParams` (`image.go`): quality 80, interlaced; all other
fields at their Go zero values. -/
def NewJpegExportParams : JpegExportParams :=
  { StripMetadata := false, Quality := 80, Interlace := true,
    OptimizeCoding := false, SubsampleMode := 0, TrellisQuant := false,
    OvershootDeringing := false, OptimizeScans := false, QuantTable := 0 }

/-- Source `PngExportParams` (`image.go`). -/
structure PngExportParams where
  StripMetadata : Bool
  Compression : Int
  Filter : Int
  Interlace : Bool
  Quality : Int
  Palette : Bool
  Dither : GoFloat
  Bitdepth : Int
  Profile : String
deriving DecidableEq, Repr

/-- Source `NewPngExportParams` (`image.go`): compression 6, filter none,
non-interlaced, no palette. -/
def NewPngExportParams : PngExportParams :=
  { StripMetadata := false, Compression := 6, Filter := pngFilterNone,
    Interlace := false, Quality := 0, Palette := false, Dither := 0,
    Bitdepth := 0, Profile := "" }

/-- Source `WebpExportParams` (`image.go`). -/
structure WebpExportParams where
  StripMetadata : Bool
  Quality : Int
  Lossless : Bool
  NearLossless : Bool
  ReductionEffort : Int
  IccProfile : String
deriving DecidableEq, Repr

/-- Source `NewWebpExportParams` (`image.go`): quality 75, lossy, effort 4. -/
def NewWebpExportParams : WebpExportParams :=
  { StripMetadata := false, Quality := 75, Lossless := false,
    NearLossless := false, ReductionEffort := 4, IccProfile := "" }

/-- Source `HeifExportParams` (`image.go`). -/
structure HeifExportParams where
  Quality : Int
  Lossless : Bool
deriving DecidableEq, Repr

/-- Source `NewHeifExportParams` (`image.go`). -/
def NewHeifExportParams : HeifExportParams :=
  { Quality := 80, Lossless := false }

/-- Source `TiffExportParams` (`image.go`). -/
structure TiffExportParams where
  StripMetadata : Bool
  Quality : Int
  Compression : Int
  Predictor : Int
deriving DecidableEq, Repr

/-- Source `NewTiffExportParams` (`image.go`). -/
def NewTiffExportParams : TiffExportParams :=
  { StripMetadata := false, Quality := 80, Compression := tiffCompressionLzw,
    Predictor := tiffPredictorHorizontal }

/-- Source `GifExportParams` (`image.go`). -/
structure GifExportParams where
  StripMetadata : Bool
  Quality : Int
  Dither : GoFloat
  Effort : Int
  Bitdepth : Int
deriving DecidableEq, Repr

/-- Source `NewGifExportParams` (`image.go`). -/
def NewGifExportParams : GifExportParams :=
  { StripMetadata := false, Quality := 75, Dither := 0, Effort := 7,
    Bitdepth := 8 }

/-- Source `AvifExportParams` (`image.go`). -/
structure AvifExportParams where
  StripMetadata : Bool
  Quality : Int
  Lossless : Bool
  Speed : Int
deriving DecidableEq, Repr

/-- Source `NewAvifExportParams` (`image.go`). -/
def NewAvifExportParams : AvifExportParams :=
  { StripMetadata := false, Quality := 80, Lossless := false, Speed := 5 }

/-- Source `Jp2kExportParams` (`image.go`). -/
structure Jp2kExportParams where
  Quality : Int
  Lossless : Bool
  TileWidth : Int
  TileHeight : Int
  SubsampleMode : Int
deriving DecidableEq, Repr

/-- Source `NewJp2kExportParams` (`image.go`). -/
def NewJp2kExportParams : Jp2kExportParams :=
  { Quality := 80, Lossless := false, TileWidth := 512, TileHeight := 512,
    SubsampleMode := 0 }

/-- Source `ExportParams` (`image.go`): the deprecated generic parameter set. -/
structure ExportParams where
  Format : ImageType
  Quality : Int
  Compression : Int
  Interlaced : Bool
  Lossless : Bool
  Effort : Int
  StripMetadata : Bool
  OptimizeCoding : Bool
  SubsampleMode : Int
  TrellisQuant : Bool
  OvershootDeringing : Bool
  OptimizeScans : Bool
  QuantTable : Int
  Speed : Int
deriving DecidableEq, Repr

/-- Per-codec encode invocation: which save primitive was called and with
which concrete parameter set. -/
inductive EncodeCall where
  | jpeg (p : JpegExportParams)
  | png (p : PngExportParams)
  | webp (p : WebpExportParams)
  | heif (p : HeifExportParams)
  | tiff (p : TiffExportParams)
  | gif (p : GifExportParams)
  | avif (p : AvifExportParams)
  | jp2k (p : Jp2kExportParams)
deriving DecidableEq, Repr

/-- One native primitive invocation performed by the handle layer, recorded in
call order. -/
inductive PrimEvent where
  | copy (img : VipsImage)
  | toColorSpace (img : VipsImage) (interp : Int)
  | linear (img : VipsImage) (a b : List GoFloat)
  | premultiply (img : VipsImage)
  | unpremultiply (img : VipsImage)
  | cast (img : VipsImage) (fmt : Int)
  | resize (img : VipsImage) (hScale vScale : GoFloat) (kernel : Int)
  | flip (img : VipsImage) (direction : Int)
  | grid (img : VipsImage) (tileHeight across down : Int)
  | rotate (img : VipsImage) (angle : Angle)
  | iccTransform (img : VipsImage) (outputProfile inputProfile : String)
      (depth : Int) (embedded : Bool)
  | setPageHeightMeta (img : VipsImage) (height : Int)
  | setNPagesMeta (img : VipsImage) (pages : Int)
  | encode (img : VipsImage) (call : EncodeCall)
deriving DecidableEq, Repr

/-- Modelled from the spec: the native Operation Primitives and the
`IsTypeSupported` predicate are external collaborators (native engine code and
repository files outside `src/`).  Each primitive is a pure function from a
native image to a new native image or an error, exactly as §2 of the spec
describes them. -/
structure Env where
  copyImage : VipsImage → Except String VipsImage
  toColorSpace : VipsImage → Int → Except String VipsImage
  linear : VipsImage → List GoFloat → List GoFloat → Except String VipsImage
  premultiplyAlpha : VipsImage → Except String VipsImage
  unpremultiplyAlpha : VipsImage → Except String VipsImage
  cast : VipsImage → Int → Except String VipsImage
  resizeWithVScale : VipsImage → GoFloat → GoFloat → Int → Except String VipsImage
  flip : VipsImage → Int → Except String VipsImage
  grid : VipsImage → Int → Int → Int → Except String VipsImage
  rotate : VipsImage → Angle → Except String VipsImage
  iccTransform : VipsImage → String → String → Int → Bool → Except String VipsImage
  saveJpeg : VipsImage → JpegExportParams → Except String (List Nat)
  savePng : VipsImage → PngExportParams → Except String (List Nat)
  saveWebp : VipsImage → WebpExportParams → Except String (List Nat)
  saveHeif : VipsImage → HeifExportParams → Except String (List Nat)
  saveTiff : VipsImage → TiffExportParams → Except String (List Nat)
  saveGif : VipsImage → GifExportParams → Except String (List Nat)
  saveAvif : VipsImage → AvifExportParams → Except String (List Nat)
  saveJp2k : VipsImage → Jp2kExportParams → Except String (List Nat)
  isTypeSupported : ImageType → Bool

/-- Outcome of one mutation method call: the handle afterwards, the returned
`error`, and the ordered trace of primitive invocations it performed. -/
structure MethodResult where
  ref : ImageRef
  err : Option String
  trace : List PrimEvent
deriving DecidableEq, Repr

/-- Go's early-return sequencing: if the first stage returned an error the
method aborts with the handle as that stage left it; otherwise the second
stage runs on the handle the first stage produced, and the traces append. -/
def MethodResult.andThen (m : MethodResult) (f : ImageRef → MethodResult) :
    MethodResult :=
  match m.err with
  | some _ => m
  | none =>
    let m2 := f m.ref
    ⟨m2.ref, m2.err, m.trace ++ m2.trace⟩

/-- The dereferenced native image of a live handle (`r.image` in Go; methods
below are only invoked on live handles, mirroring Go where a `nil` deref would
crash). -/
def ImageRef.img (r : ImageRef) : VipsImage :=
  r.image.getD default

/-- Source `Width` (`image.go`): `int(r.image.Xsize)`. -/
def ImageRef.Width (r : ImageRef) : Int := r.img.xsize

/-- Source `Height` (`image.go`): `int(r.image.Ysize)`. -/
def ImageRef.Height (r : ImageRef) : Int := r.img.ysize

/-- Source `Bands` (`image.go`). -/
def ImageRef.Bands (r : ImageRef) : Int := r.img.bands

/-- Source `BandFormat` (`image.go`): the current band format header field. -/
def ImageRef.BandFormat (r : ImageRef) : Int := r.img.bandFmt

/-- Source `ColorSpace` / `Interpretation` (`image.go`). -/
def ImageRef.ColorSpace (r : ImageRef) : Int := r.img.interp

/-- Source `HasAlpha` (`image.go`, via the C helper `has_alpha_channel`). -/
def ImageRef.HasAlpha (r : ImageRef) : Bool := r.img.hasAlpha

/-- Source `HasICCProfile` / `HasProfile` (`image.go`, via `vipsHasICCProfile`). -/
def ImageRef.HasICCProfile (r : ImageRef) : Bool := r.img.hasICC

/-- Source `Orientation` (`image.go`, via `vipsGetMetaOrientation`). -/
def ImageRef.Orientation (r : ImageRef) : Int := r.img.orient

/-- Source `Pages` (`image.go`): the `n-pages` metadata, overridden to 1 for JP2K
because libvips reuses the attribute for pyramid layers there. -/
def ImageRef.Pages (r : ImageRef) : Int :=
  if r.format = ImageType.jp2k then 1 else r.img.nPages

/-- Source `GetPageHeight` / `PageHeight` (`image.go`, via `vipsGetPageHeight`). -/
def ImageRef.GetPageHeight (r : ImageRef) : Int := r.img.pageHeight

/-- Source `newMetadata` (`image.go`): the metadata snapshot taken at export time. -/
def ImageRef.newMetadata (r : ImageRef) (format : ImageType) : ImageMetadata :=
  { Format := format, Width := r.Width, Height := r.Height,
    Colorspace := r.ColorSpace, Orientation := r.Orientation,
    Pages := r.Pages }

/-- Source `setImage` (`image.go`): the replace operation.  Returns the new handle
and the list of native references released (`clearImage` calls).  If the
incoming reference is identical to the current one it is a no-op; otherwise
the old reference (when present) is released and the new one stored. -/
def ImageRef.setImage (r : ImageRef) (image : Option VipsImage) :
    ImageRef × List VipsImage :=
  if r.image = image then
    (r, [])
  else
    let released :=
      match r.image with
      | some old => [old]
      | none => []
    ({ r with image := image }, released)

/-- Source `Close` (`image.go`): releases the native object when present, then drops
the retained buffer.  Returns the new handle and the released references. -/
def ImageRef.Close (r : ImageRef) : ImageRef × List VipsImage :=
  match r.image with
  | some old => ({ r with image := none, buf := none }, [old])
  | none => ({ r with buf := none }, [])

/-- The common body of the single-primitive mutation methods: invoke the
primitive against the current native object; on error return it with the
handle untouched; on success swap the output in via `setImage`. -/
def primSwap (r : ImageRef) (ev : PrimEvent)
    (res : Except String VipsImage) : MethodResult :=
  match res with
  | .error e => ⟨r, some e, [ev]⟩
  | .ok out => ⟨(r.setImage (some out)).1, none, [ev]⟩

/-- Source `ToColorSpace` (`image.go`). -/
def ImageRef.ToColorSpace (r : ImageRef) (env : Env) (interp : Int) :
    MethodResult :=
  primSwap r (.toColorSpace r.img interp) (env.toColorSpace r.img interp)

/-- Source `Linear` (`image.go`): rejects mismatched coefficient lengths before
invoking the primitive. -/
def ImageRef.Linear (r : ImageRef) (env : Env) (a b : List GoFloat) :
    MethodResult :=
  if a.length ≠ b.length then
    ⟨r, some "a and b must be of same length", []⟩
  else
    primSwap r (.linear r.img a b) (env.linear r.img a b)

/-- Source `Flip` (`image.go`). -/
def ImageRef.Flip (r : ImageRef) (env : Env) (direction : Int) : MethodResult :=
  primSwap r (.flip r.img direction) (env.flip r.img direction)

/-- Source `Grid` (`image.go`). -/
def ImageRef.Grid (r : ImageRef) (env : Env) (tileHeight across down : Int) :
    MethodResult :=
  primSwap r (.grid r.img tileHeight across down)
    (env.grid r.img tileHeight across down)

/-- Source `Cast` (`image.go`). -/
def ImageRef.Cast (r : ImageRef) (env : Env) (format : Int) : MethodResult :=
  primSwap r (.cast r.img format) (env.cast r.img format)

/-- Source `PremultiplyAlpha` (`image.go`): no-op when already active or when the
image has no alpha channel; otherwise saves the current band format, invokes
the premultiply primitive and swaps the result in. -/
def ImageRef.PremultiplyAlpha (r : ImageRef) (env : Env) : MethodResult :=
  if r.preMultiplication.isSome || !r.HasAlpha then
    ⟨r, none, []⟩
  else
    let band := r.BandFormat
    match env.premultiplyAlpha r.img with
    | .error e => ⟨r, some e, [.premultiply r.img]⟩
    | .ok out =>
      let r1 := { r with preMultiplication := some ⟨band⟩ }
      ⟨(r1.setImage (some out)).1, none, [.premultiply r.img]⟩

/-- Source `UnpremultiplyAlpha` (`image.go`): no-op when inactive; otherwise invokes
the unpremultiply primitive, casts back to the saved band format, clears the
tracker and swaps the result in.  (The intermediate image is released by a
`defer`; releases are not part of the primitive trace.) -/
def ImageRef.UnpremultiplyAlpha (r : ImageRef) (env : Env) : MethodResult :=
  match r.preMultiplication with
  | none => ⟨r, none, []⟩
  | some pm =>
    match env.unpremultiplyAlpha r.img with
    | .error e => ⟨r, some e, [.unpremultiply r.img]⟩
    | .ok unpremultiplied =>
      match env.cast unpremultiplied pm.bandFormat with
      | .error e =>
        ⟨r, some e, [.unpremultiply r.img, .cast unpremultiplied pm.bandFormat]⟩
      | .ok out =>
        let r1 := { r with preMultiplication := none }
        ⟨(r1.setImage (some out)).1, none,
          [.unpremultiply r.img, .cast unpremultiplied pm.bandFormat]⟩

/-- Source `SetPageHeight` (`image.go`): copies the image, writes the page-height
metadata on the copy, and swaps the copy in. -/
def ImageRef.SetPageHeight (r : ImageRef) (env : Env) (height : Int) :
    MethodResult :=
  match env.copyImage r.img with
  | .error e => ⟨r, some e, [.copy r.img]⟩
  | .ok out =>
    let out2 := vipsSetPageHeight out height
    ⟨(r.setImage (some out2)).1, none,
      [.copy r.img, .setPageHeightMeta out height]⟩

/-- Source `SetPages` (`image.go`), transcribed exactly: it copies the image, then
writes the `n-pages` metadata on `r.image` (the old image, not the copy), and
finally swaps the copy in. -/
def ImageRef.SetPages (r : ImageRef) (env : Env) (pages : Int) : MethodResult :=
  match env.copyImage r.img with
  | .error e => ⟨r, some e, [.copy r.img]⟩
  | .ok out =>
    let r1 := { r with image := some (vipsSetImageNPages r.img pages) }
    ⟨(r1.setImage (some out)).1, none,
      [.copy r.img, .setNPagesMeta r.img pages]⟩

/-- Source `Modulate` (`image.go`): LCH round-trip around a `Linear` call.  The
colour space to restore and the alpha-dependent coefficient lists are computed
from the handle before the first conversion. -/
def ImageRef.Modulate (r : ImageRef) (env : Env)
    (brightness saturation hue : GoFloat) : MethodResult :=
  let colorspace :=
    if r.ColorSpace = interpretationRGB then interpretationSRGB
    else r.ColorSpace
  let multiplications :=
    if r.HasAlpha then [brightness, saturation, 1, 1]
    else [brightness, saturation, 1]
  let additions :=
    if r.HasAlpha then [0, 0, hue, 0] else [0, 0, hue]
  ((r.ToColorSpace env interpretationLCH).andThen fun r1 =>
    r1.Linear env multiplications additions).andThen fun r2 =>
      r2.ToColorSpace env colorspace

/-- Source `ModulateHSV` (`image.go`). -/
def ImageRef.ModulateHSV (r : ImageRef) (env : Env)
    (brightness saturation : GoFloat) (hue : Int) : MethodResult :=
  let colorspace :=
    if r.ColorSpace = interpretationRGB then interpretationSRGB
    else r.ColorSpace
  let multiplications :=
    if r.HasAlpha then [1, saturation, brightness, 1]
    else [1, saturation, brightness]
  let additions :=
    if r.HasAlpha then [⟨hue, 1⟩, 0, 0, 0] else [⟨hue, 1⟩, 0, 0]
  ((r.ToColorSpace env interpretationHSV).andThen fun r1 =>
    r1.Linear env multiplications additions).andThen fun r2 =>
      r2.ToColorSpace env colorspace

/-- Source `ResizeWithVScale` (`image.go`): premultiply bracket around the resize
primitive; for multi-page images the page-height metadata is rescaled by the
effective vertical factor after the resize succeeds. -/
def ImageRef.ResizeWithVScale (r : ImageRef) (env : Env)
    (hScale vScale : GoFloat) (kernel : Int) : MethodResult :=
  (r.PremultiplyAlpha env).andThen fun r1 =>
    let pages := r1.Pages
    let pageHeight := r1.GetPageHeight
    (primSwap r1 (.resize r1.img hScale vScale kernel)
        (env.resizeWithVScale r1.img hScale vScale kernel)).andThen fun r2 =>
      (if pages > 1 then
        let scale := if vScale.isNegOne then hScale else vScale
        r2.SetPageHeight env (scale.mulIntTrunc pageHeight)
      else ⟨r2, none, []⟩).andThen fun r3 =>
        r3.UnpremultiplyAlpha env

/-- Source `Resize` (`image.go`): `ResizeWithVScale` with `vScale = -1`. -/
def ImageRef.Resize (r : ImageRef) (env : Env) (scale : GoFloat)
    (kernel : Int) : MethodResult :=
  r.ResizeWithVScale env scale (-1) kernel

/-- Source `Rotate` (`image.go`): for multi-page images rotated by 90 or 270 degrees
the column of frames is first reshaped into a grid (with a horizontal-flip
bracket for 270), then the rotate primitive runs, then the page-height
metadata is set to the pre-rotation width. -/
def ImageRef.Rotate (r : ImageRef) (env : Env) (angle : Angle) : MethodResult :=
  let width := r.Width
  (if r.Pages > 1 ∧ (angle = Angle.d90 ∨ angle = Angle.d270) then
    ((if angle = Angle.d270 then r.Flip env directionHorizontal
      else ⟨r, none, []⟩).andThen fun r1 =>
        r1.Grid env r1.GetPageHeight r1.Pages 1).andThen fun r2 =>
          if angle = Angle.d270 then r2.Flip env directionHorizontal
          else ⟨r2, none, []⟩
  else ⟨r, none, []⟩).andThen fun r3 =>
    (primSwap r3 (.rotate r3.img angle) (env.rotate r3.img angle)).andThen
      fun r4 =>
        if r4.Pages > 1 ∧ (angle = Angle.d90 ∨ angle = Angle.d270) then
          r4.SetPageHeight env width
        else ⟨r4, none, []⟩

/-- Source `determineInputICCProfile` (`image.go`). -/
def ImageRef.determineInputICCProfile (r : ImageRef) : String :=
  if r.ColorSpace = interpretationCMYK then "cmyk" else ""

/-- Source `OptimizeICCProfile` (`image.go`): chooses a gray or sRGB target profile,
records it on the handle, and runs the ICC transform primitive.  Note the Go
code assigns `r.optimizedIccProfile` before the transform, so the field stays
set even when the transform fails. -/
def ImageRef.OptimizeICCProfile (r : ImageRef) (env : Env) : MethodResult :=
  let inputProfile := r.determineInputICCProfile
  if !r.HasICCProfile && inputProfile = "" then
    ⟨r, none, []⟩
  else
    let prof :=
      if r.Bands ≤ 2 then SGrayV2MicroICCProfilePath
      else SRGBV2MicroICCProfilePath
    let r1 := { r with optimizedIccProfile := prof }
    let embedded := r.HasICCProfile
    let depth :=
      if r.BandFormat = bandFormatUchar ∨ r.BandFormat = bandFormatChar ∨
          r.BandFormat = bandFormatNotSet then (8 : Int)
      else 16
    match env.iccTransform r1.img prof inputProfile depth embedded with
    | .error e =>
      ⟨r1, some e, [.iccTransform r1.img prof inputProfile depth embedded]⟩
    | .ok out =>
      ⟨(r1.setImage (some out)).1, none,
        [.iccTransform r1.img prof inputProfile depth embedded]⟩

/-- Outcome of an export call: the handle afterwards (export never mutates
it), the encoded buffer, the metadata snapshot, the error, and the trace. -/
structure ExpOut where
  ref : ImageRef
  buf : Option (List Nat)
  meta : Option ImageMetadata
  err : Option String
  trace : List PrimEvent
deriving DecidableEq, Repr

/-- Source `ExportJpeg` (`image.go`): `nil` parameters mean the documented
defaults. -/
def ImageRef.ExportJpeg (r : ImageRef) (env : Env)
    (params : Option JpegExportParams) : ExpOut :=
  let p := params.getD NewJpegExportParams
  match env.saveJpeg r.img p with
  | .error e => ⟨r, none, none, some e, [.encode r.img (.jpeg p)]⟩
  | .ok buf =>
    ⟨r, some buf, some (r.newMetadata ImageType.jpeg), none,
      [.encode r.img (.jpeg p)]⟩

/-- Source `ExportPng` (`image.go`). -/
def ImageRef.ExportPng (r : ImageRef) (env : Env)
    (params : Option PngExportParams) : ExpOut :=
  let p := params.getD NewPngExportParams
  match env.savePng r.img p with
  | .error e => ⟨r, none, none, some e, [.encode r.img (.png p)]⟩
  | .ok buf =>
    ⟨r, some buf, some (r.newMetadata ImageType.png), none,
      [.encode r.img (.png p)]⟩

/-- Source `ExportWebp` (`image.go`): copies the caller's parameter set and attaches
the handle's `optimizedIccProfile` to the copy actually passed to the save
primitive (the caller's struct is left untouched, mirrored here by the
functional update of the copy `paramsWithIccProfile := *params`). -/
def ImageRef.ExportWebp (r : ImageRef) (env : Env)
    (params : Option WebpExportParams) : ExpOut :=
  let p := params.getD NewWebpExportParams
  let paramsWithIccProfile := { p with IccProfile := r.optimizedIccProfile }
  match env.saveWebp r.img paramsWithIccProfile with
  | .error e =>
    ⟨r, none, none, some e, [.encode r.img (.webp paramsWithIccProfile)]⟩
  | .ok buf =>
    ⟨r, some buf, some (r.newMetadata ImageType.webp), none,
      [.encode r.img (.webp paramsWithIccProfile)]⟩

/-- Source `ExportHeif` (`image.go`). -/
def ImageRef.ExportHeif (r : ImageRef) (env : Env)
    (params : Option HeifExportParams) : ExpOut :=
  let p := params.getD NewHeifExportParams
  match env.saveHeif r.img p with
  | .error e => ⟨r, none, none, some e, [.encode r.img (.heif p)]⟩
  | .ok buf =>
    ⟨r, some buf, some (r.newMetadata ImageType.heif), none,
      [.encode r.img (.heif p)]⟩

/-- Source `ExportTiff` (`image.go`). -/
def ImageRef.ExportTiff (r : ImageRef) (env : Env)
    (params : Option TiffExportParams) : ExpOut :=
  let p := params.getD NewTiffExportParams
  match env.saveTiff r.img p with
  | .error e => ⟨r, none, none, some e, [.encode r.img (.tiff p)]⟩
  | .ok buf =>
    ⟨r, some buf, some (r.newMetadata ImageType.tiff), none,
      [.encode r.img (.tiff p)]⟩

/-- Source `ExportGIF` (`image.go`). -/
def ImageRef.ExportGIF (r : ImageRef) (env : Env)
    (params : Option GifExportParams) : ExpOut :=
  let p := params.getD NewGifExportParams
  match env.saveGif r.img p with
  | .error e => ⟨r, none, none, some e, [.encode r.img (.gif p)]⟩
  | .ok buf =>
    ⟨r, some buf, some (r.newMetadata ImageType.gif), none,
      [.encode r.img (.gif p)]⟩

/-- Source `ExportAvif` (`image.go`). -/
def ImageRef.ExportAvif (r : ImageRef) (env : Env)
    (params : Option AvifExportParams) : ExpOut :=
  let p := params.getD NewAvifExportParams
  match env.saveAvif r.img p with
  | .error e => ⟨r, none, none, some e, [.encode r.img (.avif p)]⟩
  | .ok buf =>
    ⟨r, some buf, some (r.newMetadata ImageType.avif), none,
      [.encode r.img (.avif p)]⟩

/-- Source `ExportJp2k` (`image.go`). -/
def ImageRef.ExportJp2k (r : ImageRef) (env : Env)
    (params : Option Jp2kExportParams) : ExpOut :=
  let p := params.getD NewJp2kExportParams
  match env.saveJp2k r.img p with
  | .error e => ⟨r, none, none, some e, [.encode r.img (.jp2k p)]⟩
  | .ok buf =>
    ⟨r, some buf, some (r.newMetadata ImageType.jp2k), none,
      [.encode r.img (.jp2k p)]⟩

/-- The set of formats `ExportNative` has an encoder branch for. -/
def encodableFormats : List ImageType :=
  [ImageType.jpeg, ImageType.png, ImageType.webp, ImageType.heif,
   ImageType.tiff, ImageType.avif, ImageType.jp2k, ImageType.gif]

/-- Source `ExportNative` (`image.go`): dispatch on the handle's current format with
each codec's default parameters; unlisted formats fall back to JPEG. -/
def ImageRef.ExportNative (r : ImageRef) (env : Env) : ExpOut :=
  match r.format with
  | ImageType.jpeg => r.ExportJpeg env none
  | ImageType.png => r.ExportPng env none
  | ImageType.webp => r.ExportWebp env none
  | ImageType.heif => r.ExportHeif env none
  | ImageType.tiff => r.ExportTiff env none
  | ImageType.avif => r.ExportAvif env none
  | ImageType.jp2k => r.ExportJp2k env none
  | ImageType.gif => r.ExportGIF env none
  | _ => r.ExportJpeg env none

/-- Source `Export` (`image.go`): the deprecated generic export entry point.  `nil`
parameters or an unknown format defer to `ExportNative`; an explicitly
requested format is validated against `IsTypeSupported` before any encoder is
invoked, then translated to the codec-specific parameter set. -/
def ImageRef.Export (r : ImageRef) (env : Env)
    (params : Option ExportParams) : ExpOut :=
  match params with
  | none => r.ExportNative env
  | some p =>
    if p.Format = ImageType.unknown then r.ExportNative env
    else if !env.isTypeSupported p.Format then
      ⟨r, none, some (r.newMetadata ImageType.unknown),
        some "cannot save to unsupported format", []⟩
    else
      match p.Format with
      | ImageType.gif =>
        r.ExportGIF env (some
          { StripMetadata := false, Quality := p.Quality, Dither := 0,
            Effort := 0, Bitdepth := 0 })
      | ImageType.webp =>
        r.ExportWebp env (some
          { StripMetadata := p.StripMetadata, Quality := p.Quality,
            Lossless := p.Lossless, NearLossless := false,
            ReductionEffort := p.Effort, IccProfile := "" })
      | ImageType.png =>
        r.ExportPng env (some
          { StripMetadata := p.StripMetadata, Compression := p.Compression,
            Filter := 0, Interlace := p.Interlaced, Quality := 0,
            Palette := false, Dither := 0, Bitdepth := 0, Profile := "" })
      | ImageType.tiff =>
        r.ExportTiff env (some
          { StripMetadata := p.StripMetadata, Quality := p.Quality,
            Compression :=
              if p.Lossless then tiffCompressionNone else tiffCompressionLzw,
            Predictor := 0 })
      | ImageType.heif =>
        r.ExportHeif env (some { Quality := p.Quality, Lossless := p.Lossless })
      | ImageType.avif =>
        r.ExportAvif env (some
          { StripMetadata := p.StripMetadata, Quality := p.Quality,
            Lossless := p.Lossless, Speed := p.Speed })
      | _ =>
        r.ExportJpeg env (some
          { StripMetadata := p.StripMetadata, Quality := p.Quality,
            Interlace := p.Interlaced, OptimizeCoding := p.OptimizeCoding,
            SubsampleMode := p.SubsampleMode, TrellisQuant := p.TrellisQuant,
            OvershootDeringing := p.OvershootDeringing,
            OptimizeScans := p.OptimizeScans, QuantTable := p.QuantTable })

/-- Modelled from the spec: a concrete instance of the external collaborators
in which every primitive succeeds, returns a fresh native object (fresh id)
and applies its documented header effect while copying metadata through, as
§2 of the spec describes the Operation Primitives. -/
def specEnv : Env where
  copyImage := fun img => .ok { img with id := img.id + 1 }
  toColorSpace := fun img i => .ok { img with id := img.id + 1, interp := i }
  linear := fun img _ _ => .ok { img with id := img.id + 1 }
  premultiplyAlpha := fun img =>
    .ok { img with id := img.id + 1, bandFmt := bandFormatFloat }
  unpremultiplyAlpha := fun img => .ok { img with id := img.id + 1 }
  cast := fun img fmt => .ok { img with id := img.id + 1, bandFmt := fmt }
  resizeWithVScale := fun img h v _ =>
    .ok { img with id := img.id + 1,
                   xsize := h.mulIntTrunc img.xsize,
                   ysize := (if v.isNegOne then h else v).mulIntTrunc img.ysize }
  flip := fun img _ => .ok { img with id := img.id + 1 }
  grid := fun img th across down =>
    .ok { img with id := img.id + 1, xsize := img.xsize * across,
                   ysize := th * down }
  rotate := fun img angle =>
    .ok (if angle = Angle.d90 ∨ angle = Angle.d270 then
      { img with id := img.id + 1, xsize := img.ysize, ysize := img.xsize }
    else { img with id := img.id + 1 })
  iccTransform := fun img _ _ _ _ => .ok { img with id := img.id + 1 }
  saveJpeg := fun _ _ => .ok [255, 216]
  savePng := fun _ _ => .ok [137, 80]
  saveWebp := fun _ _ => .ok [82, 73]
  saveHeif := fun _ _ => .ok [0]
  saveTiff := fun _ _ => .ok [73, 73]
  saveGif := fun _ _ => .ok [71, 73]
  saveAvif := fun _ _ => .ok [0, 1]
  saveJp2k := fun _ _ => .ok [12]
  isTypeSupported := fun t => encodableFormats.contains t

/-- A 3-page animated image: width 100, page height 80, total height 240,
with an alpha channel. -/
def animImg : VipsImage :=
  { id := 1, xsize := 100, ysize := 240, bands := 4,
    bandFmt := bandFormatUchar, interp := interpretationSRGB, nPages := 3,
    pageHeight := 80, orient := 1, hasAlpha := true, hasICC := false }

/-- A live handle over `animImg`. -/
def animRef : ImageRef :=
  { image := some animImg, format := ImageType.gif,
    originalFormat := ImageType.gif, preMultiplication := none,
    optimizedIccProfile := "", buf := some [1, 2, 3] }

/-- A single-page opaque sRGB image. -/
def rgbImg : VipsImage :=
  { id := 1, xsize := 100, ysize := 100, bands := 3,
    bandFmt := bandFormatUchar, interp := interpretationSRGB, nPages := 1,
    pageHeight := 100, orient := 1, hasAlpha := false, hasICC := false }

/-- A live handle over `rgbImg`. -/
def rgbRef : ImageRef :=
  { image := some rgbImg, format := ImageType.jpeg,
    originalFormat := ImageType.jpeg, preMultiplication := none,
    optimizedIccProfile := "", buf := some [9] }

/-! ## Helper lemmas about the sequencing combinators -/

theorem setImage_fst (r : ImageRef) (o : Option VipsImage) :
    (r.setImage o).1 = { r with image := o } := by
  unfold ImageRef.setImage
  by_cases h : r.image = o
  · simp only [h, if_pos rfl]
    cases r
    simp_all
  · simp [h]

theorem andThen_of_err_some {m : MethodResult} {f : ImageRef → MethodResult}
    {e : String} (h : m.err = some e) : m.andThen f = m := by
  unfold MethodResult.andThen
  rw [h]

theorem andThen_of_err_none {m : MethodResult} {f : ImageRef → MethodResult}
    (h : m.err = none) :
    m.andThen f = ⟨(f m.ref).ref, (f m.ref).err, m.trace ++ (f m.ref).trace⟩ := by
  unfold MethodResult.andThen
  rw [h]

theorem andThen_mk_none (r : ImageRef) (t : List PrimEvent)
    (f : ImageRef → MethodResult) :
    (MethodResult.mk r none t).andThen f =
      ⟨(f r).ref, (f r).err, t ++ (f r).trace⟩ := rfl

theorem andThen_mk_some (r : ImageRef) (e : String) (t : List PrimEvent)
    (f : ImageRef → MethodResult) :
    (MethodResult.mk r (some e) t).andThen f = ⟨r, some e, t⟩ := rfl

theorem andThen_err_none {m : MethodResult} {f : ImageRef → MethodResult}
    (h : (m.andThen f).err = none) : m.err = none ∧ (f m.ref).err = none := by
  unfold MethodResult.andThen at h
  cases he : m.err with
  | none => rw [he] at h; exact ⟨rfl, h⟩
  | some e =>
    rw [he] at h
    have h2 : m.err = none := h
    rw [he] at h2
    exact Option.noConfusion h2

theorem primSwap_ref_of_err {r : ImageRef} {ev : PrimEvent}
    {res : Except String VipsImage} (h : (primSwap r ev res).err.isSome = true) :
    (primSwap r ev res).ref = r := by
  unfold primSwap at *
  cases res <;> simp_all

theorem primSwap_err_none {r : ImageRef} {ev : PrimEvent}
    {res : Except String VipsImage} (h : (primSwap r ev res).err = none) :
    ∃ out, res = .ok out ∧
      primSwap r ev res = ⟨{ r with image := some out }, none, [ev]⟩ := by
  cases res with
  | error e => simp [primSwap] at h
  | ok out =>
    exact ⟨out, rfl, by simp [primSwap, setImage_fst]⟩

/-- Contract on an external primitive: on success it carries the page-count
and page-height metadata of its input through to its output (libvips
operations copy metadata from input to output). -/
def preservesPageMeta (f : VipsImage → Except String VipsImage) : Prop :=
  ∀ img out, f img = .ok out →
    out.nPages = img.nPages ∧ out.pageHeight = img.pageHeight

theorem PremultiplyAlpha_err_none {r : ImageRef} {env : Env}
    (h : (r.PremultiplyAlpha env).err = none) :
    r.PremultiplyAlpha env = ⟨r, none, []⟩ ∨
    ∃ out, env.premultiplyAlpha r.img = .ok out ∧ r.preMultiplication = none ∧
      r.PremultiplyAlpha env =
        ⟨{ r with preMultiplication := some ⟨r.BandFormat⟩, image := some out },
          none, [.premultiply r.img]⟩ := by
  unfold ImageRef.PremultiplyAlpha at *
  by_cases hc : (r.preMultiplication.isSome || !r.HasAlpha) = true
  · left
    simp [hc]
  · right
    rw [if_neg hc] at h ⊢
    have htr : r.preMultiplication = none := by
      cases hx : r.preMultiplication <;> simp_all
    cases hp : env.premultiplyAlpha r.img with
    | error e => simp [hp] at h
    | ok out =>
      refine ⟨out, rfl, htr, ?_⟩
      simp [setImage_fst]

theorem UnpremultiplyAlpha_err_none {r : ImageRef} {env : Env}
    (h : (r.UnpremultiplyAlpha env).err = none) :
    (r.preMultiplication = none ∧ r.UnpremultiplyAlpha env = ⟨r, none, []⟩) ∨
    ∃ pm unp out, r.preMultiplication = some pm ∧
      env.unpremultiplyAlpha r.img = .ok unp ∧
      env.cast unp pm.bandFormat = .ok out ∧
      r.UnpremultiplyAlpha env =
        ⟨{ r with preMultiplication := none, image := some out }, none,
          [.unpremultiply r.img, .cast unp pm.bandFormat]⟩ := by
  unfold ImageRef.UnpremultiplyAlpha at *
  cases hpm : r.preMultiplication with
  | none => left; exact ⟨rfl, by simp⟩
  | some pm =>
    right
    cases hu : env.unpremultiplyAlpha r.img with
    | error e => simp [hpm, hu] at h
    | ok unp =>
      cases hcst : env.cast unp pm.bandFormat with
      | error e => simp [hpm, hu, hcst] at h
      | ok out =>
        refine ⟨pm, unp, out, rfl, rfl, hcst, ?_⟩
        simp [hcst, setImage_fst]

theorem SetPageHeight_err_none {r : ImageRef} {env : Env} {height : Int}
    (h : (r.SetPageHeight env height).err = none) :
    ∃ cpy, env.copyImage r.img = .ok cpy ∧
      r.SetPageHeight env height =
        ⟨{ r with image := some { cpy with pageHeight := height } }, none,
          [.copy r.img, .setPageHeightMeta cpy height]⟩ := by
  unfold ImageRef.SetPageHeight at *
  cases hc : env.copyImage r.img with
  | error e => simp [hc] at h
  | ok cpy =>
    refine ⟨cpy, rfl, ?_⟩
    simp [setImage_fst, vipsSetPageHeight]

/-! ## Claim theorems -/

/-- C8: calling `Close` twice in a row is safe: the first call releases the
native object and drops the retained buffer; the second call performs no
native release and changes nothing. -/
theorem Close_idempotent (r : ImageRef) (old : VipsImage)
    (h : r.image = some old) :
    r.Close = ({ r with image := none, buf := none }, [old]) ∧
    (r.Close.1).Close = (r.Close.1, []) := by
  unfold ImageRef.Close
  rw [h]
  exact ⟨rfl, rfl⟩

/-- Witness for C8: closing the animated-image handle twice. -/
theorem Close_idempotent_witness :
    animRef.Close = ({ animRef with image := none, buf := none }, [animImg]) ∧
    (animRef.Close.1).Close = (animRef.Close.1, []) :=
  Close_idempotent animRef animImg rfl

/-- C9: `setImage` compares the incoming native reference for identity with
the current one: installing an identical reference is a no-op that releases
nothing, while installing a distinct reference stores the new one and
releases exactly the old reference (when one is present). -/
theorem setImage_identity (r : ImageRef) (image : Option VipsImage) :
    (r.image = image → r.setImage image = (r, [])) ∧
    (r.image ≠ image →
      r.setImage image = ({ r with image := image }, r.image.toList)) := by
  constructor
  · intro h
    unfold ImageRef.setImage
    simp [h]
  · intro h
    unfold ImageRef.setImage
    rw [if_neg h]
    cases hr : r.image <;> simp

/-- Witness for C9: installing a distinct reference releases the old one;
installing the current reference releases nothing. -/
theorem setImage_identity_witness :
    animRef.setImage (some rgbImg) =
      ({ animRef with image := some rgbImg }, [animImg]) ∧
    animRef.setImage (some animImg) = (animRef, []) :=
  ⟨(setImage_identity animRef (some rgbImg)).2 (by decide),
   (setImage_identity animRef (some animImg)).1 rfl⟩

/-- C10 (code bug): `SetPages` writes the `n-pages` metadata on the old
native image (`r.image`) instead of on the copy it installs, so the update is
discarded: on a 3-page handle, `SetPages 7` returns no error yet an
immediately following `Pages` still reports 3, not 7. -/
theorem SetPages_update_lost :
    (animRef.SetPages specEnv 7).err = none ∧
    (animRef.SetPages specEnv 7).ref.Pages = 3 ∧
    (animRef.SetPages specEnv 7).ref.Pages ≠ 7 := by
  decide

/-- C5: `ExportWebp` passes to the WEBP save primitive the caller's fields
with the `IccProfile` field replaced by the handle's `optimizedIccProfile`
(and likewise on top of the defaults when called with `nil` parameters); the
caller's struct is never written to (the override happens on a copy). -/
theorem ExportWebp_attaches_optimized_profile (env : Env) (r : ImageRef)
    (p : WebpExportParams) :
    (r.ExportWebp env (some p)).trace =
      [.encode r.img (.webp
        { StripMetadata := p.StripMetadata, Quality := p.Quality,
          Lossless := p.Lossless, NearLossless := p.NearLossless,
          ReductionEffort := p.ReductionEffort,
          IccProfile := r.optimizedIccProfile })] ∧
    (r.ExportWebp env none).trace =
      [.encode r.img (.webp
        { StripMetadata := false, Quality := 75, Lossless := false,
          NearLossless := false, ReductionEffort := 4,
          IccProfile := r.optimizedIccProfile })] := by
  constructor <;>
  · unfold ImageRef.ExportWebp
    dsimp only
    split <;> rfl

/-- C7: requesting export to a format outside the supported set fails with a
parameter error before any encode primitive runs, and leaves the handle
untouched. -/
theorem Export_unsupported_rejected (env : Env) (r : ImageRef)
    (p : ExportParams) (hfmt : p.Format ≠ ImageType.unknown)
    (hsup : env.isTypeSupported p.Format = false) :
    (r.Export env (some p)).err.isSome = true ∧
    (r.Export env (some p)).ref = r ∧
    (r.Export env (some p)).trace = [] ∧
    (r.Export env (some p)).buf = none := by
  unfold ImageRef.Export
  simp [hfmt, hsup]

/-- Parameter set requesting export to BMP, a format without an encoder. -/
def bmpParams : ExportParams :=
  { Format := ImageType.bmp, Quality := 80, Compression := 6,
    Interlaced := false, Lossless := false, Effort := 4,
    StripMetadata := false, OptimizeCoding := false, SubsampleMode := 0,
    TrellisQuant := false, OvershootDeringing := false,
    OptimizeScans := false, QuantTable := 0, Speed := 0 }

/-- Witness for C7: exporting to BMP fails before any encode primitive and
does not mutate the handle. -/
theorem Export_unsupported_rejected_witness :
    (rgbRef.Export specEnv (some bmpParams)).err.isSome = true ∧
    (rgbRef.Export specEnv (some bmpParams)).ref = rgbRef ∧
    (rgbRef.Export specEnv (some bmpParams)).trace = [] ∧
    (rgbRef.Export specEnv (some bmpParams)).buf = none :=
  Export_unsupported_rejected specEnv rgbRef bmpParams (by decide) (by decide)

/-- C6: with `nil` parameters or an unknown requested format, `Export` defers
to `ExportNative`, which dispatches to the encoder for the handle's current
format with that codec's default parameters and falls back to the JPEG
encoder with JPEG defaults for formats outside the encodable set. -/
theorem Export_native_default_dispatch (env : Env) (r : ImageRef) :
    (r.Export env none = r.ExportNative env) ∧
    (∀ p : ExportParams, p.Format = ImageType.unknown →
      r.Export env (some p) = r.ExportNative env) ∧
    (r.format = ImageType.jpeg → r.ExportNative env = r.ExportJpeg env none) ∧
    (r.format = ImageType.png → r.ExportNative env = r.ExportPng env none) ∧
    (r.format = ImageType.webp → r.ExportNative env = r.ExportWebp env none) ∧
    (r.format = ImageType.heif → r.ExportNative env = r.ExportHeif env none) ∧
    (r.format = ImageType.tiff → r.ExportNative env = r.ExportTiff env none) ∧
    (r.format = ImageType.avif → r.ExportNative env = r.ExportAvif env none) ∧
    (r.format = ImageType.jp2k → r.ExportNative env = r.ExportJp2k env none) ∧
    (r.format = ImageType.gif → r.ExportNative env = r.ExportGIF env none) ∧
    (r.format ∉ encodableFormats →
      r.ExportNative env = r.ExportJpeg env none) ∧
    ((r.ExportJpeg env none).trace =
      [.encode r.img (.jpeg NewJpegExportParams)]) := by
  refine ⟨rfl, ?_, ?_, ?_, ?_, ?_, ?_, ?_, ?_, ?_, ?_, ?_⟩
  · intro p h
    unfold ImageRef.Export
    simp [h]
  · intro h; unfold ImageRef.ExportNative; rw [h]
  · intro h; unfold ImageRef.ExportNative; rw [h]
  · intro h; unfold ImageRef.ExportNative; rw [h]
  · intro h; unfold ImageRef.ExportNative; rw [h]
  · intro h; unfold ImageRef.ExportNative; rw [h]
  · intro h; unfold ImageRef.ExportNative; rw [h]
  · intro h; unfold ImageRef.ExportNative; rw [h]
  · intro h; unfold ImageRef.ExportNative; rw [h]
  · intro h
    unfold ImageRef.ExportNative
    cases hf : r.format <;> simp_all [encodableFormats]
  · unfold ImageRef.ExportJpeg
    dsimp only
    split <;> rfl

/-- A handle whose current format (BMP) has no encoder branch. -/
def bmpRef : ImageRef := { rgbRef with format := ImageType.bmp }

/-- Witness for C6: on a BMP-format handle, `Export` with `nil` parameters
goes through `ExportNative` and falls back to the JPEG encoder with the JPEG
default parameter set. -/
theorem Export_native_default_dispatch_witness :
    bmpRef.Export specEnv none = bmpRef.ExportNative specEnv ∧
    bmpRef.ExportNative specEnv = bmpRef.ExportJpeg specEnv none ∧
    (bmpRef.ExportJpeg specEnv none).trace =
      [.encode bmpRef.img (.jpeg NewJpegExportParams)] :=
  ⟨(Export_native_default_dispatch specEnv bmpRef).1,
   (Export_native_default_dispatch specEnv bmpRef).2.2.2.2.2.2.2.2.2.2.1
     (by decide),
   (Export_native_default_dispatch specEnv bmpRef).2.2.2.2.2.2.2.2.2.2.2⟩

/-- Environment whose `linear` primitive always fails. -/
def envLinearFails : Env :=
  { specEnv with linear := fun _ _ _ => .error "linear failed" }

/-- Environment whose colourspace-conversion primitive always fails. -/
def envToColorSpaceFails : Env :=
  { specEnv with toColorSpace := fun _ _ => .error "colourspace failed" }

/-- Counterexample to C1 as stated: `Modulate` first converts the handle to
LCH and only then runs `Linear`; when `Linear` fails, `Modulate` returns an
error but the handle has already been swapped to the LCH-converted image, so
a failing mutation method can leave the handle changed. -/
theorem Modulate_partial_application :
    ((rgbRef.Modulate envLinearFails 1 1 0).err.isSome = true) ∧
    (rgbRef.Modulate envLinearFails 1 1 0).ref ≠ rgbRef ∧
    (rgbRef.Modulate envLinearFails 1 1 0).ref.ColorSpace =
      interpretationLCH := by
  decide

/-- C1 (amended): for every embedded mutation method, if the first
primitive the method invokes fails, the Handle's native reference, format
fields, page metadata and pre-multiplication state are exactly what they
were immediately before the call.  The single-primitive methods
(`ToColorSpace`, `Linear`, `Flip`, `Grid`, `Cast`, `SetPageHeight`,
`SetPages`) and the pre-multiplication bracket methods (whose swap happens
only after all their primitives succeed) leave the entire Handle unchanged
whenever they return an error; `OptimizeICCProfile` leaves every field of
the listed state unchanged on error, updating only its optimized-profile
field (assigned before the transform primitive runs, and not part of the
listed state).  The composed methods (`Modulate`, `ModulateHSV`,
`ResizeWithVScale`, `Rotate` — the latter in all three first-primitive
shapes: plain rotate, grid-first for 90 degrees, flip-first for 270
degrees) abort at the first failing primitive with the Handle unchanged;
when a later primitive of a composed method fails, the effects of the
earlier successful primitives remain visible, as the counterexample shows
for `Modulate`. -/
theorem mutation_failure_first_primitive (env : Env) (r : ImageRef) :
    (∀ i, (r.ToColorSpace env i).err.isSome = true →
      (r.ToColorSpace env i).ref = r) ∧
    (∀ a b, (r.Linear env a b).err.isSome = true →
      (r.Linear env a b).ref = r) ∧
    (∀ d, (r.Flip env d).err.isSome = true → (r.Flip env d).ref = r) ∧
    (∀ th ac dn, (r.Grid env th ac dn).err.isSome = true →
      (r.Grid env th ac dn).ref = r) ∧
    (∀ fmt, (r.Cast env fmt).err.isSome = true → (r.Cast env fmt).ref = r) ∧
    (∀ hgt, (r.SetPageHeight env hgt).err.isSome = true →
      (r.SetPageHeight env hgt).ref = r) ∧
    (∀ n, (r.SetPages env n).err.isSome = true → (r.SetPages env n).ref = r) ∧
    ((r.PremultiplyAlpha env).err.isSome = true →
      (r.PremultiplyAlpha env).ref = r) ∧
    ((r.UnpremultiplyAlpha env).err.isSome = true →
      (r.UnpremultiplyAlpha env).ref = r) ∧
    ((r.OptimizeICCProfile env).err.isSome = true →
      (r.OptimizeICCProfile env).ref.image = r.image ∧
      (r.OptimizeICCProfile env).ref.format = r.format ∧
      (r.OptimizeICCProfile env).ref.originalFormat = r.originalFormat ∧
      (r.OptimizeICCProfile env).ref.preMultiplication =
        r.preMultiplication ∧
      (r.OptimizeICCProfile env).ref.buf = r.buf) ∧
    (∀ b s h e, env.toColorSpace r.img interpretationLCH = .error e →
      r.Modulate env b s h =
        ⟨r, some e, [.toColorSpace r.img interpretationLCH]⟩) ∧
    (∀ b s h e, env.toColorSpace r.img interpretationHSV = .error e →
      r.ModulateHSV env b s h =
        ⟨r, some e, [.toColorSpace r.img interpretationHSV]⟩) ∧
    (∀ hS vS k e, (r.PremultiplyAlpha env).err = some e →
      (r.ResizeWithVScale env hS vS k).ref = r ∧
      (r.ResizeWithVScale env hS vS k).err = some e) ∧
    (∀ hS vS k e, r.PremultiplyAlpha env = ⟨r, none, []⟩ →
      env.resizeWithVScale r.img hS vS k = .error e →
      (r.ResizeWithVScale env hS vS k).ref = r ∧
      (r.ResizeWithVScale env hS vS k).err = some e) ∧
    (∀ angle e, ¬(r.Pages > 1 ∧ (angle = Angle.d90 ∨ angle = Angle.d270)) →
      env.rotate r.img angle = .error e →
      (r.Rotate env angle).ref = r ∧ (r.Rotate env angle).err = some e) ∧
    (∀ e, r.Pages > 1 →
      env.grid r.img r.GetPageHeight r.Pages 1 = .error e →
      (r.Rotate env Angle.d90).ref = r ∧
      (r.Rotate env Angle.d90).err = some e) ∧
    (∀ e, r.Pages > 1 →
      env.flip r.img directionHorizontal = .error e →
      (r.Rotate env Angle.d270).ref = r ∧
      (r.Rotate env Angle.d270).err = some e) := by
  refine ⟨?_, ?_, ?_, ?_, ?_, ?_, ?_, ?_, ?_, ?_, ?_, ?_, ?_, ?_, ?_, ?_, ?_⟩
  · intro i h
    exact primSwap_ref_of_err h
  · intro a b h
    unfold ImageRef.Linear at *
    by_cases hl : a.length ≠ b.length
    · simp [hl]
    · rw [if_neg hl] at h ⊢
      exact primSwap_ref_of_err h
  · intro d h
    exact primSwap_ref_of_err h
  · intro th ac dn h
    exact primSwap_ref_of_err h
  · intro fmt h
    exact primSwap_ref_of_err h
  · intro hgt h
    unfold ImageRef.SetPageHeight at *
    cases hc : env.copyImage r.img <;> simp_all
  · intro n h
    unfold ImageRef.SetPages at *
    cases hc : env.copyImage r.img <;> simp_all
  · intro h
    unfold ImageRef.PremultiplyAlpha at *
    by_cases hc : (r.preMultiplication.isSome || !r.HasAlpha) = true
    · simp [hc]
    · rw [if_neg hc] at h ⊢
      cases hp : env.premultiplyAlpha r.img <;> simp_all
  · intro h
    unfold ImageRef.UnpremultiplyAlpha at *
    cases hpm : r.preMultiplication with
    | none => simp
    | some pm =>
      cases hu : env.unpremultiplyAlpha r.img with
      | error e => simp [hpm, hu]
      | ok unp =>
        cases hcst : env.cast unp pm.bandFormat with
        | error e => simp [hpm, hu, hcst]
        | ok out => simp_all [hpm, hu, hcst]
  · intro h
    unfold ImageRef.OptimizeICCProfile at h ⊢
    dsimp only at h ⊢
    split at h
    · exact absurd h (by simp)
    · rename_i hcond
      rw [if_neg hcond]
      split at h
      · exact ⟨rfl, rfl, rfl, rfl, rfl⟩
      · exact absurd h (by simp)
  · intro b s h e hp
    unfold ImageRef.Modulate ImageRef.ToColorSpace
    rw [andThen_of_err_some (m := primSwap r
      (.toColorSpace r.img interpretationLCH)
      (env.toColorSpace r.img interpretationLCH) |>.andThen _) (e := e)]
    · rw [andThen_of_err_some (e := e)]
      · simp [primSwap, hp]
      · simp [primSwap, hp]
    · rw [andThen_of_err_some (e := e)] <;> simp [primSwap, hp]
  · intro b s h e hp
    unfold ImageRef.ModulateHSV ImageRef.ToColorSpace
    rw [andThen_of_err_some (m := primSwap r
      (.toColorSpace r.img interpretationHSV)
      (env.toColorSpace r.img interpretationHSV) |>.andThen _) (e := e)]
    · rw [andThen_of_err_some (e := e)]
      · simp [primSwap, hp]
      · simp [primSwap, hp]
    · rw [andThen_of_err_some (e := e)] <;> simp [primSwap, hp]
  · intro hS vS k e hp
    unfold ImageRef.ResizeWithVScale
    rw [andThen_of_err_some hp]
    unfold ImageRef.PremultiplyAlpha at *
    by_cases hc : (r.preMultiplication.isSome || !r.HasAlpha) = true
    · rw [if_pos hc] at hp
      exact absurd hp (by simp)
    · rw [if_neg hc] at hp ⊢
      cases hq : env.premultiplyAlpha r.img <;> simp_all
  · intro hS vS k e hno hre
    unfold ImageRef.ResizeWithVScale
    rw [hno]
    have hps : primSwap r (.resize r.img hS vS k)
        (env.resizeWithVScale r.img hS vS k) =
        ⟨r, some e, [.resize r.img hS vS k]⟩ := by
      simp [primSwap, hre]
    dsimp only [andThen_mk_none]
    rw [hps]
    dsimp only [andThen_mk_some]
    exact ⟨rfl, rfl⟩
  · intro angle e hnc hre
    unfold ImageRef.Rotate
    rw [if_neg hnc]
    have hps : primSwap r (.rotate r.img angle) (env.rotate r.img angle) =
        ⟨r, some e, [.rotate r.img angle]⟩ := by
      simp [primSwap, hre]
    dsimp only [andThen_mk_none]
    rw [hps]
    dsimp only [andThen_mk_some]
    exact ⟨rfl, rfl⟩
  · intro e hpg hgr
    unfold ImageRef.Rotate ImageRef.Grid ImageRef.Flip
    rw [if_pos ⟨hpg, Or.inl rfl⟩]
    have h270 : (Angle.d90 = Angle.d270) = False := by simp
    simp only [h270, if_false]
    have hps : primSwap r (.grid r.img r.GetPageHeight r.Pages 1)
        (env.grid r.img r.GetPageHeight r.Pages 1) =
        ⟨r, some e, [.grid r.img r.GetPageHeight r.Pages 1]⟩ := by
      simp [primSwap, hgr]
    dsimp only [andThen_mk_none]
    rw [hps]
    dsimp only [andThen_mk_some]
    exact ⟨rfl, rfl⟩
  · intro e hpg hfl
    unfold ImageRef.Rotate ImageRef.Grid ImageRef.Flip
    rw [if_pos ⟨hpg, Or.inr rfl⟩]
    have h270 : (Angle.d270 = Angle.d270) = True := by simp
    simp only [h270, if_true]
    have hps : primSwap r (.flip r.img directionHorizontal)
        (env.flip r.img directionHorizontal) =
        ⟨r, some e, [.flip r.img directionHorizontal]⟩ := by
      simp [primSwap, hfl]
    rw [hps]
    dsimp only [andThen_mk_some]
    exact ⟨rfl, rfl⟩

/-- Environment whose grid primitive always fails. -/
def envGridFails : Env :=
  { specEnv with grid := fun _ _ _ _ => .error "grid failed" }

/-- Witness for C1 (amended): `Modulate` whose first primitive (the LCH
conversion) fails returns that error with the handle unchanged, and a
multi-page `Rotate` by 90 degrees whose first primitive (the grid reshape)
fails likewise returns the error with the handle unchanged. -/
theorem mutation_failure_first_primitive_witness :
    rgbRef.Modulate envToColorSpaceFails 1 1 0 =
      ⟨rgbRef, some "colourspace failed",
        [.toColorSpace rgbRef.img interpretationLCH]⟩ ∧
    (animRef.Rotate envGridFails Angle.d90).ref = animRef ∧
    (animRef.Rotate envGridFails Angle.d90).err = some "grid failed" :=
  ⟨(mutation_failure_first_primitive envToColorSpaceFails
      rgbRef).2.2.2.2.2.2.2.2.2.2.1 1 1 0 "colourspace failed" rfl,
   ((mutation_failure_first_primitive envGridFails
      animRef).2.2.2.2.2.2.2.2.2.2.2.2.2.2.2.1 "grid failed" (by decide)
      rfl).1,
   ((mutation_failure_first_primitive envGridFails
      animRef).2.2.2.2.2.2.2.2.2.2.2.2.2.2.2.1 "grid failed" (by decide)
      rfl).2⟩

/-- A handle with alpha whose pre-multiplication tracker is already active
with saved band format `uchar`, while the image's current band format is
`float` (reachable via `PremultiplyAlpha` followed by `Cast`). -/
def trackedRef : ImageRef :=
  { image := some { animImg with bandFmt := bandFormatFloat },
    format := ImageType.png, originalFormat := ImageType.png,
    preMultiplication := some ⟨bandFormatUchar⟩,
    optimizedIccProfile := "", buf := some [] }

/-- Counterexample to C2 as stated: on a handle with an alpha channel whose
tracker is already active, `PremultiplyAlpha` is a no-op and
`UnpremultiplyAlpha` casts back to the previously saved band format, so the
pair succeeds and clears the tracker yet the reported band format after the
pair differs from the band format immediately before it. -/
theorem premultiply_pair_changes_band :
    trackedRef.HasAlpha = true ∧
    (trackedRef.PremultiplyAlpha specEnv).err = none ∧
    ((trackedRef.PremultiplyAlpha specEnv).ref.UnpremultiplyAlpha
      specEnv).err = none ∧
    ((trackedRef.PremultiplyAlpha specEnv).ref.UnpremultiplyAlpha
      specEnv).ref.preMultiplication = none ∧
    ((trackedRef.PremultiplyAlpha specEnv).ref.UnpremultiplyAlpha
      specEnv).ref.BandFormat ≠ trackedRef.BandFormat := by
  decide

/-- C2 (amended): for a handle whose pre-multiplication tracker is inactive,
`PremultiplyAlpha` immediately followed by `UnpremultiplyAlpha` (both
succeeding) restores the band format reported before the pair and leaves the
tracker cleared; and for an image without an alpha channel
`PremultiplyAlpha` returns `nil` without invoking any primitive and changes
no state.  (The cast primitive's contract — its output carries the requested
band format — is the hypothesis `hcast`.) -/
theorem premultiply_unpremultiply_roundtrip (env : Env) (r : ImageRef)
    (hcast : ∀ i fmt out, env.cast i fmt = .ok out → out.bandFmt = fmt) :
    (r.HasAlpha = false → r.PremultiplyAlpha env = ⟨r, none, []⟩) ∧
    (r.HasAlpha = true → r.preMultiplication = none →
      (r.PremultiplyAlpha env).err = none →
      ((r.PremultiplyAlpha env).ref.UnpremultiplyAlpha env).err = none →
      ((r.PremultiplyAlpha env).ref.UnpremultiplyAlpha env).ref.BandFormat =
        r.BandFormat ∧
      ((r.PremultiplyAlpha env).ref.UnpremultiplyAlpha
        env).ref.preMultiplication = none) := by
  constructor
  · intro ha
    unfold ImageRef.PremultiplyAlpha
    simp [ImageRef.HasAlpha] at ha
    simp [ImageRef.HasAlpha, ha]
  · intro ha htr h1 h2
    rcases PremultiplyAlpha_err_none h1 with hm1 | ⟨out, hpr, _, hm1⟩
    · rw [hm1] at h2 ⊢
      rcases UnpremultiplyAlpha_err_none h2 with ⟨_, hm2⟩ |
        ⟨pm, unp, fin, hpm', hu, hcst, hm2⟩
      · rw [hm2]
        exact ⟨rfl, htr⟩
      · simp [htr] at hpm'
    · rw [hm1] at h2 ⊢
      rcases UnpremultiplyAlpha_err_none h2 with ⟨hnone, hm2⟩ |
        ⟨pm, unp, fin, hpm', hu, hcst, hm2⟩
      · simp at hnone
      · rw [hm2]
        have hpm2 : pm = ⟨r.BandFormat⟩ := by
          simp at hpm'
          exact hpm'.symm
        subst hpm2
        have hfmt := hcast _ _ _ hcst
        constructor
        · simp [ImageRef.BandFormat, ImageRef.img] at hfmt ⊢
          exact hfmt
        · rfl

/-- Witness for C2 (amended): the alpha-carrying animated handle with
inactive tracker goes through the premultiply–unpremultiply pair and ends
with its original band format and a cleared tracker. -/
theorem premultiply_unpremultiply_roundtrip_witness :
    ((animRef.PremultiplyAlpha specEnv).ref.UnpremultiplyAlpha
      specEnv).ref.BandFormat = animRef.BandFormat ∧
    ((animRef.PremultiplyAlpha specEnv).ref.UnpremultiplyAlpha
      specEnv).ref.preMultiplication = none :=
  (premultiply_unpremultiply_roundtrip specEnv animRef
    (fun i fmt out h => by
      simp only [specEnv] at h
      injection h with h
      subst h
      rfl)).2 rfl rfl (by decide) (by decide)

set_option maxHeartbeats 1000000

/-- Whether an event is an invocation of the geometric resize primitive. -/
def isResizeEv : PrimEvent → Bool
  | .resize _ _ _ _ => true
  | _ => false

/-- Whether an event is a write of the page-height metadata. -/
def isSetPageHeightEv : PrimEvent → Bool
  | .setPageHeightMeta _ _ => true
  | _ => false

/-- Whether an event is an invocation of the grid (reshape) primitive. -/
def isGridEv : PrimEvent → Bool
  | .grid _ _ _ _ => true
  | _ => false

/-- Whether an event is an invocation of the rotate primitive. -/
def isRotateEv : PrimEvent → Bool
  | .rotate _ _ => true
  | _ => false

/-- Source `eventBefore p q t`: some event satisfying `p` occurs strictly before
some event satisfying `q` in the trace `t`. -/
def eventBefore (p q : PrimEvent → Bool) : List PrimEvent → Bool
  | [] => false
  | e :: rest => (p e && rest.any q) || eventBefore p q rest

/-- C3: on a handle with more than one page, a successful
`ResizeWithVScale` sets the stored page-height metadata to the old page
height multiplied by the effective vertical scale factor (`vScale`, or
`hScale` when `vScale` is `-1`; the product is truncated to `int` as in the
Go code), and the metadata write happens after the geometric resize
primitive succeeds and before the method returns; on a single-page handle
the page-height metadata is never rewritten.  The hypotheses
`hprem`/`hunprem`/`hcast` are the external primitives' metadata-preservation
contract. -/
theorem ResizeWithVScale_pageHeight (env : Env) (r : ImageRef)
    (img : VipsImage) (hScale vScale : GoFloat) (kernel : Int)
    (himg : r.image = some img)
    (hprem : preservesPageMeta env.premultiplyAlpha)
    (hunprem : preservesPageMeta env.unpremultiplyAlpha)
    (hcast : ∀ fmt, preservesPageMeta (fun i => env.cast i fmt))
    (hok : (r.ResizeWithVScale env hScale vScale kernel).err = none) :
    (r.Pages > 1 →
      (r.ResizeWithVScale env hScale vScale kernel).ref.GetPageHeight =
        (if vScale.isNegOne then hScale else vScale).mulIntTrunc
          img.pageHeight ∧
      eventBefore isResizeEv isSetPageHeightEv
        (r.ResizeWithVScale env hScale vScale kernel).trace = true) ∧
    (r.Pages ≤ 1 →
      (r.ResizeWithVScale env hScale vScale kernel).trace.all
        (fun e => !isSetPageHeightEv e) = true) := by
  unfold ImageRef.ResizeWithVScale at hok ⊢
  obtain ⟨h1, h2⟩ := andThen_err_none hok
  rw [andThen_of_err_none h1] at hok ⊢
  dsimp only at h2 hok ⊢
  rcases PremultiplyAlpha_err_none h1 with hm1 | ⟨out, hpr, htr0, hm1⟩ <;>
    rw [hm1] at h2 hok ⊢ <;> dsimp only at h2 hok ⊢
  · -- premultiply was a no-op: the handle entering the resize is `r` itself
    have hph : r.GetPageHeight = img.pageHeight := by
      simp [ImageRef.GetPageHeight, ImageRef.img, himg]
    rw [hph] at h2 hok ⊢
    obtain ⟨h3, h4⟩ := andThen_err_none h2
    rcases primSwap_err_none h3 with ⟨res, hres, hps⟩
    rw [hps] at h4 hok ⊢
    dsimp only [andThen_mk_none] at h4 hok ⊢
    constructor
    · intro hgt
      rw [if_pos hgt] at h4 ⊢
      obtain ⟨h5, h6⟩ := andThen_err_none h4
      rcases SetPageHeight_err_none h5 with ⟨cpy, hcpy, hm3⟩
      rw [hm3] at h6 ⊢
      dsimp only [andThen_mk_none] at h6 ⊢
      rcases UnpremultiplyAlpha_err_none h6 with ⟨htrk, hm4⟩ |
        ⟨pm, unp, fin, hpm4, hu4, hc4, hm4⟩ <;> rw [hm4] <;> dsimp only
      · exact ⟨by simp [ImageRef.GetPageHeight, ImageRef.img], rfl⟩
      · constructor
        · have hup := hunprem _ _ hu4
          have hcp := (hcast pm.bandFormat) _ _ hc4
          simp [ImageRef.GetPageHeight, ImageRef.img] at hup hcp ⊢
          rw [hcp.2, hup.2]
        · rfl
    · intro hle
      rw [if_neg (by omega)] at h4 ⊢
      dsimp only [andThen_mk_none] at h4 ⊢
      rcases UnpremultiplyAlpha_err_none h4 with ⟨htrk, hm4⟩ |
        ⟨pm, unp, fin, hpm4, hu4, hc4, hm4⟩ <;> rw [hm4] <;> rfl
  · -- premultiply ran: the handle entering the resize carries the
    -- premultiplied image, whose page metadata matches the original
    have hpre := hprem _ _ hpr
    have hpg :
        ImageRef.Pages
          { r with preMultiplication := some ⟨r.BandFormat⟩,
                   image := some out } = r.Pages := by
      simp [ImageRef.Pages, ImageRef.img, himg, hpre.1]
    have hph2 :
        ImageRef.GetPageHeight
          { r with preMultiplication := some ⟨r.BandFormat⟩,
                   image := some out } = img.pageHeight := by
      simp [ImageRef.GetPageHeight, ImageRef.img, himg, hpre.2]
    rw [hpg, hph2] at h2 hok ⊢
    obtain ⟨h3, h4⟩ := andThen_err_none h2
    rcases primSwap_err_none h3 with ⟨res, hres, hps⟩
    rw [hps] at h4 hok ⊢
    dsimp only [andThen_mk_none] at h4 hok ⊢
    constructor
    · intro hgt
      rw [if_pos hgt] at h4 ⊢
      obtain ⟨h5, h6⟩ := andThen_err_none h4
      rcases SetPageHeight_err_none h5 with ⟨cpy, hcpy, hm3⟩
      rw [hm3] at h6 ⊢
      dsimp only [andThen_mk_none] at h6 ⊢
      rcases UnpremultiplyAlpha_err_none h6 with ⟨htrk, hm4⟩ |
        ⟨pm, unp, fin, hpm4, hu4, hc4, hm4⟩ <;> rw [hm4] <;> dsimp only
      · exact ⟨by simp [ImageRef.GetPageHeight, ImageRef.img], rfl⟩
      · constructor
        · have hup := hunprem _ _ hu4
          have hcp := (hcast pm.bandFormat) _ _ hc4
          simp [ImageRef.GetPageHeight, ImageRef.img] at hup hcp ⊢
          rw [hcp.2, hup.2]
        · rfl
    · intro hle
      rw [if_neg (by omega)] at h4 ⊢
      dsimp only [andThen_mk_none] at h4 ⊢
      rcases UnpremultiplyAlpha_err_none h4 with ⟨htrk, hm4⟩ |
        ⟨pm, unp, fin, hpm4, hu4, hc4, hm4⟩ <;> rw [hm4] <;> rfl

/-- C4: on a handle with more than one page, a successful `Rotate` by 90 or
270 degrees reshapes the column of frames into a grid before invoking the
rotate primitive, afterwards sets the page-height metadata to the
pre-rotation image width, and leaves the page count unchanged.  The
hypotheses `hflip`/`hgrid`/`hrot`/`hcopy` are the external primitives'
metadata-preservation contract. -/
theorem Rotate_multipage_geometry (env : Env) (r : ImageRef) (img : VipsImage)
    (angle : Angle) (himg : r.image = some img)
    (hang : angle = Angle.d90 ∨ angle = Angle.d270)
    (hpages : r.Pages > 1)
    (hflip : preservesPageMeta (fun i => env.flip i directionHorizontal))
    (hgrid : ∀ th ac dn, preservesPageMeta (fun i => env.grid i th ac dn))
    (hrot : ∀ a, preservesPageMeta (fun i => env.rotate i a))
    (hcopy : preservesPageMeta env.copyImage)
    (hok : (r.Rotate env angle).err = none) :
    (r.Rotate env angle).ref.GetPageHeight = r.Width ∧
    (r.Rotate env angle).ref.Pages = r.Pages ∧
    eventBefore isGridEv isRotateEv (r.Rotate env angle).trace = true ∧
    eventBefore isRotateEv isSetPageHeightEv (r.Rotate env angle).trace = true := by
  have hfmt : r.format ≠ ImageType.jp2k := by
    intro hf
    rw [ImageRef.Pages, if_pos hf] at hpages
    omega
  have himg' : r.img = img := by simp [ImageRef.img, himg]
  unfold ImageRef.Rotate ImageRef.Grid ImageRef.Flip at hok ⊢
  rw [if_pos ⟨hpages, hang⟩] at hok ⊢
  rcases hang with hang | hang <;> subst hang
  · -- 90 degrees: no flip bracket
    have h270 : (Angle.d90 = Angle.d270) = False := by simp
    simp only [h270, if_false] at hok ⊢
    dsimp only [andThen_mk_none] at hok ⊢
    obtain ⟨hP, hok2⟩ := andThen_err_none hok
    obtain ⟨hGr, _⟩ := andThen_err_none hP
    rcases primSwap_err_none hGr with ⟨gout, hg, hpsG⟩
    rw [hpsG] at hok2 ⊢
    dsimp only [andThen_mk_none] at hok2 ⊢
    obtain ⟨hRo, hok3⟩ := andThen_err_none hok2
    rcases primSwap_err_none hRo with ⟨rout, hrr, hpsR⟩
    rw [hpsR] at hok3 ⊢
    dsimp only [andThen_mk_none] at hok3 ⊢
    have hgp := (hgrid r.GetPageHeight r.Pages 1) _ _ hg
    have hrp := (hrot Angle.d90) _ _ hrr
    simp only [ImageRef.img, Option.getD] at hgp hrp
    have hp4 : ImageRef.Pages { r with image := some rout } = r.Pages := by
      simp [ImageRef.Pages, ImageRef.img, hfmt, hrp.1, hgp.1, himg]
    rw [if_pos ⟨hp4.symm ▸ hpages, Or.inl trivial⟩] at hok3 ⊢
    rcases SetPageHeight_err_none hok3 with ⟨cpy, hcp, hm5⟩
    rw [hm5]
    dsimp only
    have hcpp := hcopy _ _ hcp
    simp only [ImageRef.img, Option.getD] at hcpp
    refine ⟨by simp [ImageRef.GetPageHeight, ImageRef.img], ?_, rfl, rfl⟩
    simp [ImageRef.Pages, ImageRef.img, hfmt, hcpp.1, hrp.1, hgp.1, himg]
  · -- 270 degrees: horizontal-flip bracket around the grid reshape
    have h270 : (Angle.d270 = Angle.d270) = True := by simp
    simp only [h270, if_true] at hok ⊢
    obtain ⟨hP, hok2⟩ := andThen_err_none hok
    obtain ⟨hF1G, hok15⟩ := andThen_err_none hP
    obtain ⟨hF1, hokG⟩ := andThen_err_none hF1G
    rcases primSwap_err_none hF1 with ⟨fout1, hf1, hps1⟩
    rw [hps1] at hokG hok15 hok2 ⊢
    dsimp only [andThen_mk_none] at hokG hok15 hok2 ⊢
    rcases primSwap_err_none hokG with ⟨gout, hg, hpsG⟩
    rw [hpsG] at hok15 hok2 ⊢
    dsimp only [andThen_mk_none] at hok15 hok2 ⊢
    rcases primSwap_err_none hok15 with ⟨fout2, hf2, hps2⟩
    rw [hps2] at hok2 ⊢
    dsimp only [andThen_mk_none] at hok2 ⊢
    obtain ⟨hRo, hok3⟩ := andThen_err_none hok2
    rcases primSwap_err_none hRo with ⟨rout, hrr, hpsR⟩
    rw [hpsR] at hok3 ⊢
    dsimp only [andThen_mk_none] at hok3 ⊢
    have hfp1 := hflip _ _ hf1
    have hgp := (hgrid _ _ _) _ _ hg
    have hfp2 := hflip _ _ hf2
    have hrp := (hrot Angle.d270) _ _ hrr
    simp only [ImageRef.img, Option.getD] at hfp1 hgp hfp2 hrp
    have hp4 : ImageRef.Pages { r with image := some rout } = r.Pages := by
      simp [ImageRef.Pages, ImageRef.img, hfmt, hrp.1, hfp2.1, hgp.1,
        hfp1.1, himg]
    rw [if_pos ⟨hp4.symm ▸ hpages, Or.inr trivial⟩] at hok3 ⊢
    rcases SetPageHeight_err_none hok3 with ⟨cpy, hcp, hm5⟩
    rw [hm5]
    dsimp only
    have hcpp := hcopy _ _ hcp
    simp only [ImageRef.img, Option.getD] at hcpp
    refine ⟨by simp [ImageRef.GetPageHeight, ImageRef.img], ?_, rfl, rfl⟩
    simp [ImageRef.Pages, ImageRef.img, hfmt, hcpp.1, hrp.1, hfp2.1, hgp.1,
      hfp1.1, himg]

theorem specEnv_premultiply_preserves :
    preservesPageMeta specEnv.premultiplyAlpha := by
  intro i o h
  injection h with h
  subst h
  exact ⟨rfl, rfl⟩

theorem specEnv_unpremultiply_preserves :
    preservesPageMeta specEnv.unpremultiplyAlpha := by
  intro i o h
  injection h with h
  subst h
  exact ⟨rfl, rfl⟩

theorem specEnv_cast_preserves (fmt : Int) :
    preservesPageMeta (fun i => specEnv.cast i fmt) := by
  intro i o h
  injection h with h
  subst h
  exact ⟨rfl, rfl⟩

theorem specEnv_copy_preserves : preservesPageMeta specEnv.copyImage := by
  intro i o h
  injection h with h
  subst h
  exact ⟨rfl, rfl⟩

theorem specEnv_flip_preserves :
    preservesPageMeta (fun i => specEnv.flip i directionHorizontal) := by
  intro i o h
  injection h with h
  subst h
  exact ⟨rfl, rfl⟩

theorem specEnv_grid_preserves (th ac dn : Int) :
    preservesPageMeta (fun i => specEnv.grid i th ac dn) := by
  intro i o h
  injection h with h
  subst h
  exact ⟨rfl, rfl⟩

theorem specEnv_rotate_preserves (a : Angle) :
    preservesPageMeta (fun i => specEnv.rotate i a) := by
  intro i o h
  injection h with h
  subst h
  refine ⟨?_, ?_⟩ <;> split <;> rfl

/-- Witness for C3: halving the 3-page animated image (page height 80)
rescales the stored page height to 40, with the metadata write after the
resize primitive; on the single-page handle no page-height write occurs. -/
theorem ResizeWithVScale_pageHeight_witness :
    ((animRef.ResizeWithVScale specEnv ⟨1, 2⟩ ⟨1, 2⟩ 0).ref.GetPageHeight =
        40 ∧
      eventBefore isResizeEv isSetPageHeightEv
        (animRef.ResizeWithVScale specEnv ⟨1, 2⟩ ⟨1, 2⟩ 0).trace = true) ∧
    (rgbRef.ResizeWithVScale specEnv ⟨1, 2⟩ ⟨1, 2⟩ 0).trace.all
      (fun e => !isSetPageHeightEv e) = true :=
  ⟨(ResizeWithVScale_pageHeight specEnv animRef animImg ⟨1, 2⟩ ⟨1, 2⟩ 0 rfl
      specEnv_premultiply_preserves specEnv_unpremultiply_preserves
      specEnv_cast_preserves (by decide)).1 (by decide),
   (ResizeWithVScale_pageHeight specEnv rgbRef rgbImg ⟨1, 2⟩ ⟨1, 2⟩ 0 rfl
      specEnv_premultiply_preserves specEnv_unpremultiply_preserves
      specEnv_cast_preserves (by decide)).2 (by decide)⟩

/-- Witness for C4: rotating the 3-page animated image (width 100, page
height 80, total height 240) by 90 degrees reshapes via the grid before the
rotate primitive and afterwards reports page height 100 (the pre-rotation
width) and still 3 pages. -/
theorem Rotate_multipage_geometry_witness :
    (animRef.Rotate specEnv Angle.d90).ref.GetPageHeight = 100 ∧
    (animRef.Rotate specEnv Angle.d90).ref.Pages = 3 ∧
    eventBefore isGridEv isRotateEv
      (animRef.Rotate specEnv Angle.d90).trace = true ∧
    eventBefore isRotateEv isSetPageHeightEv
      (animRef.Rotate specEnv Angle.d90).trace = true :=
  Rotate_multipage_geometry specEnv animRef animImg Angle.d90 rfl
    (Or.inl rfl) (by decide) specEnv_flip_preserves specEnv_grid_preserves
    specEnv_rotate_preserves specEnv_copy_preserves (by decide)
